import Mathlib

/-!
Shallow embedding of the window-controller state machine implemented in
`src/virt-viewer-window.c` (virt-viewer's main application window):
fullscreen transition, zoom-level management, modifier/accelerator grab
arbitration, kiosk mode, show/hide and desktop-resize reaction.

Toolkit (GTK) and Display side effects that the controller merely requests
are recorded in an explicit effect trace (`Effect`); all controller state
read back by the code (flags, saved settings, the attached display's
fields, the window accel-group set) lives in `WinState`.  Machine `gint`
values are modelled as `Int` (no arithmetic here ever approaches 2^31) and
`guint` sizes as `Nat`.  The C code computes the zoom ratio and the real
zoom level in `double`; those two computations are embedded with exact
rational semantics, rendered as integer ceiling/rounding divisions.
-/

/-- `ZOOM_STEP`, defined in `virt-viewer-window.c` line 46. -/
def ZOOM_STEP : Int := 10

/-- Modelled from the spec: `NORMAL_ZOOM_LEVEL` comes from a header that is
not under `src/`; the spec's glossary fixes it: "integer scale where 100
(`NORMAL_ZOOM_LEVEL`) = 1:1 guest-pixel-to-screen-pixel mapping". -/
def NORMAL_ZOOM_LEVEL : Int := 100

/-- Modelled from the spec: `MIN_ZOOM_LEVEL` comes from a header that is not
under `src/`.  The spec leaves the number open; 10 (= one `ZOOM_STEP` below
which zoom never goes, consistent with the spec's example `setZoomLevel(10)`)
is the value shipped by the project. -/
def MIN_ZOOM_LEVEL : Int := 10

/-- Modelled from the spec: `MAX_ZOOM_LEVEL` comes from a header that is not
under `src/`; 400 is the value shipped by the project.  All claims about it
are proved symbolically, only `MIN_ZOOM_LEVEL ≤ MAX_ZOOM_LEVEL` matters. -/
def MAX_ZOOM_LEVEL : Int := 400

/-- glib's `CLAMP(x, low, high)` macro: `x > high ? high : (x < low ? low : x)`. -/
def clampC (x low high : Int) : Int :=
  if x > high then high else if x < low then low else x

/-- Ceiling division on `Nat`: `natCeilDiv a b = ⌈a / b⌉` for `b > 0`
(and `0` when `b = 0`, matching `x / 0 = 0` on `Nat`). -/
def natCeilDiv (a b : Nat) : Nat := (a + b - 1) / b

/-- The external Display collaborator, as far as the window controller reads
it back: desktop pixel size, its current zoom level, the enabled flag and
the READY show-hint bit. -/
structure Display where
  desktopWidth : Nat
  desktopHeight : Nat
  zoomLevel : Int
  enabled : Bool
  showHintReady : Bool
  deriving DecidableEq

/-- One requested side effect on the toolkit or on the attached Display.
Each constructor corresponds to one call site in `virt-viewer-window.c`;
the two debug constructors stand for the `g_debug` calls in
`virt_viewer_window_set_zoom_level` and `virt_viewer_window_set_kiosk`,
and `warnHideKiosk` for the `g_warning` in `virt_viewer_window_hide`. -/
inductive Effect where
  | displaySetMonitor (monitor : Int)
  | displaySetFullscreen (fs : Bool)
  | displaySetZoom (z : Int)
  | displayEnable
  | displayDisable
  | gtkFullscreen
  | gtkUnfullscreen
  | moveToMonitor (monitor : Int)
  | clearSizeRequest
  | showFullscreenHeaderbar
  | hideFullscreenHeaderbar
  | forceReveal (b : Bool)
  | queueResize
  | widgetShow
  | widgetHide
  | warnHideKiosk
  | debugZoomFloorApplied
  | debugZoomUnchanged
  | debugKioskDisableUnimplemented
  deriving DecidableEq

/-- The controller state: `VirtViewerWindowPrivate` (lines 73-99) plus the
toolkit-owned data the code reads back.  `mapped`/`visible` mirror
`gtk_widget_get_mapped`/`gtk_widget_get_visible` on `priv->window`;
`mapHandlerConnected` records whether the one-shot `map-event` handler
(`mapped`, line 499) is connected; `menuBarAccel`/`enableMnemonics` are the
global `GtkSettings` values; `windowAccelGroups` is the set of accel groups
currently added to the window, `accelList` is `priv->accel_list`,
`accelGroup` is `priv->accel_group` (the exempt group) and `appEnableAccel`
is `virt_viewer_app_get_enable_accel(priv->app)`.  `minWidth`/`minHeight`
model the result of `virt_viewer_window_get_minimal_dimensions` (lines
1301-1316): the `MIN_DISPLAY_*` constants live in a header that is not
under `src/` and the top-menu natural width is toolkit data, so the pair is
carried as an input.  `allocationWidth` is the allocated pixel width of the
display widget (line 463). -/
structure WinState where
  fullscreen : Bool
  fullscreenMonitor : Int
  zoomlevel : Int
  grabbed : Bool
  accelEnabled : Bool
  kiosk : Bool
  initialZoomSet : Bool
  desktopResizePending : Bool
  visible : Bool
  mapped : Bool
  mapHandlerConnected : Bool
  display : Option Display
  allocationWidth : Nat
  minWidth : Nat
  minHeight : Nat
  menuBarAccel : String
  accelSetting : String
  enableMnemonics : Bool
  enableMnemonicsSave : Bool
  accelList : List Nat
  windowAccelGroups : List Nat
  accelGroup : Nat
  appEnableAccel : Bool
  deriving DecidableEq

/-- `virt_viewer_window_move_to_monitor` (lines 481-497): no-op when the
monitor is -1, otherwise move the window to the monitor's geometry and set
the size request (both toolkit calls, recorded as one effect). -/
def moveToMonitorEffects (s : WinState) : List Effect :=
  if s.fullscreenMonitor = -1 then [] else [Effect.moveToMonitor s.fullscreenMonitor]

/-- `virt_viewer_window_leave_fullscreen` (lines 509-532): always disconnect
the `map-event` handler first; no-op if not fullscreen; otherwise clear the
fullscreen flag and monitor, notify the attached Display (monitor -1,
fullscreen false), force-hide the revealer, hide the overlay headerbar,
clear the size request and unfullscreen the toolkit window. -/
def virt_viewer_window_leave_fullscreen (s : WinState) : WinState × List Effect :=
  let s0 : WinState := { s with mapHandlerConnected := false }
  if s0.fullscreen = false then (s0, [])
  else
    let s1 : WinState := { s0 with fullscreen := false, fullscreenMonitor := -1 }
    let dEffs : List Effect :=
      match s1.display with
      | some _ => [Effect.displaySetMonitor (-1), Effect.displaySetFullscreen false]
      | none => []
    (s1, dEffs ++ [Effect.forceReveal false, Effect.hideFullscreenHeaderbar,
                   Effect.clearSizeRequest, Effect.gtkUnfullscreen])

/-- `virt_viewer_window_enter_fullscreen` (lines 534-569): if fullscreen on a
different monitor, first leave fullscreen; if (still) fullscreen, return;
otherwise record the target monitor and set the fullscreen flag; if the
window is not yet mapped, pre-position it and connect the one-shot
`map-event` handler, deferring the rest; otherwise show the overlay
headerbar, force-reveal the revealer, notify the attached Display
(monitor, fullscreen true), move to the monitor and fullscreen the toolkit
window. -/
def virt_viewer_window_enter_fullscreen (s : WinState) (monitor : Int) :
    WinState × List Effect :=
  let pre : WinState × List Effect :=
    if s.fullscreen = true ∧ s.fullscreenMonitor ≠ monitor
    then virt_viewer_window_leave_fullscreen s
    else (s, [])
  if pre.1.fullscreen = true then (pre.1, pre.2)
  else
    let s2 : WinState := { pre.1 with fullscreenMonitor := monitor, fullscreen := true }
    if s2.mapped = false then
      ({ s2 with mapHandlerConnected := true }, pre.2 ++ moveToMonitorEffects s2)
    else
      let dEffs : List Effect :=
        match s2.display with
        | some _ => [Effect.displaySetMonitor monitor, Effect.displaySetFullscreen true]
        | none => []
      (s2, pre.2 ++ [Effect.showFullscreenHeaderbar, Effect.forceReveal true]
             ++ dEffs ++ moveToMonitorEffects s2 ++ [Effect.gtkFullscreen])

/-- The loop in `virt_viewer_window_disable_modifiers` (lines 589-594): for
each group of `priv->accel_list`, skip it when the app-level accel policy is
on and the group is the exempt `priv->accel_group`, otherwise remove it from
the window's accel groups. -/
def removeAccelGroups (win : List Nat) (groups : List Nat) (exempt : Nat)
    (enableAccel : Bool) : List Nat :=
  match groups with
  | [] => win
  | g :: rest =>
    if enableAccel = true ∧ g = exempt then removeAccelGroups win rest exempt enableAccel
    else removeAccelGroups (win.erase g) rest exempt enableAccel

/-- The loop in `virt_viewer_window_enable_modifiers` (lines 620-626): re-add
every group of `priv->accel_list` to the window under the same exemption
rule. -/
def addAccelGroups (win : List Nat) (groups : List Nat) (exempt : Nat)
    (enableAccel : Bool) : List Nat :=
  match groups with
  | [] => win
  | g :: rest =>
    if enableAccel = true ∧ g = exempt then addAccelGroups win rest exempt enableAccel
    else addAccelGroups (win ++ [g]) rest exempt enableAccel

/-- `virt_viewer_window_disable_modifiers` (lines 571-605): no-op when
already disabled; otherwise save the global menu-bar-accel setting and blank
it, remove the non-exempt accel groups, save the mnemonics setting and turn
it off, and clear `accel_enabled`. -/
def virt_viewer_window_disable_modifiers (s : WinState) : WinState :=
  if s.accelEnabled = false then s
  else
    { s with
      accelSetting := s.menuBarAccel,
      menuBarAccel := "",
      windowAccelGroups :=
        removeAccelGroups s.windowAccelGroups s.accelList s.accelGroup s.appEnableAccel,
      enableMnemonicsSave := s.enableMnemonics,
      enableMnemonics := false,
      accelEnabled := false }

/-- `virt_viewer_window_enable_modifiers` (lines 607-634): no-op when already
enabled; otherwise restore the saved menu-bar-accel setting, re-add the
accel groups under the same exemption rule, restore the mnemonics setting
and set `accel_enabled`. -/
def virt_viewer_window_enable_modifiers (s : WinState) : WinState :=
  if s.accelEnabled = true then s
  else
    { s with
      menuBarAccel := s.accelSetting,
      windowAccelGroups :=
        addAccelGroups s.windowAccelGroups s.accelList s.accelGroup s.appEnableAccel,
      enableMnemonics := s.enableMnemonicsSave,
      accelEnabled := true }

/-- `virt_viewer_window_get_minimal_zoom_level` (lines 1326-1349), with the
minimal dimensions and the Display's desktop size passed in: the C code
computes `zoom = ceil(10 * MAX(min_width/width, min_height/height))` in
`double` and returns `CLAMP(zoom * ZOOM_STEP, MIN_ZOOM_LEVEL,
NORMAL_ZOOM_LEVEL)`.  The ceiling of the maximum is embedded with exact
rational semantics as the maximum of two integer ceiling divisions (the
ceiling function is monotone); `minimalZoomFloorSpec` below restates the
spec's formula over ℚ and is proved equal. -/
def virt_viewer_window_get_minimal_zoom_level
    (minWidth minHeight width height : Nat) : Int :=
  let zoom : Int :=
    ((max (natCeilDiv (10 * minWidth) width) (natCeilDiv (10 * minHeight) height) : Nat) : Int)
  clampC (zoom * ZOOM_STEP) MIN_ZOOM_LEVEL NORMAL_ZOOM_LEVEL

/-- The minimum-zoom-floor formula as the spec words it: "compute
`ratio = max(minWidth/deskWidth, minHeight/deskHeight)`; the floor is
`ceil(ratio * 10) * ZOOM_STEP` clamped into
`[MIN_ZOOM_LEVEL, NORMAL_ZOOM_LEVEL]`". -/
def minimalZoomFloorSpec (minWidth minHeight deskWidth deskHeight : Nat) : Int :=
  let ratio : ℚ := max ((minWidth : ℚ) / (deskWidth : ℚ)) ((minHeight : ℚ) / (deskHeight : ℚ))
  clampC (⌈ratio * 10⌉ * ZOOM_STEP) MIN_ZOOM_LEVEL NORMAL_ZOOM_LEVEL

/-- `virt_viewer_window_get_real_zoom_level` (lines 455-467):
`round(NORMAL_ZOOM_LEVEL * allocation.width / desktop_width)` (and
`NORMAL_ZOOM_LEVEL` when no display is attached).  The `double` rounding of
the nonnegative quotient is embedded exactly as
`⌊(100 * allocationWidth) / desktopWidth + 1/2⌋`, rendered as an integer
division. -/
def virt_viewer_window_get_real_zoom_level (s : WinState) : Int :=
  match s.display with
  | none => NORMAL_ZOOM_LEVEL
  | some d =>
    (((2 * (100 * s.allocationWidth) + d.desktopWidth) / (2 * d.desktopWidth) : Nat) : Int)

/-- The clamp at the top of `virt_viewer_window_set_zoom_level` (lines
1228-1231): raise below `MIN_ZOOM_LEVEL` to it, lower above
`MAX_ZOOM_LEVEL` to it. -/
def clampZoomRequest (zoomLevel : Int) : Int :=
  let z1 : Int := if zoomLevel < MIN_ZOOM_LEVEL then MIN_ZOOM_LEVEL else zoomLevel
  if z1 > MAX_ZOOM_LEVEL then MAX_ZOOM_LEVEL else z1

/-- `virt_viewer_window_set_zoom_level` (lines 1219-1252): clamp the request
into `[MIN_ZOOM_LEVEL, MAX_ZOOM_LEVEL]` and store it; return if no display
is attached; raise the stored value to the minimal zoom floor; skip the
push and resize when the value equals both the Display's current zoom and
the window's observed real zoom; otherwise push the zoom to the Display and
queue a resize to natural size. -/
def virt_viewer_window_set_zoom_level (s : WinState) (zoomLevel : Int) :
    WinState × List Effect :=
  let s1 : WinState := { s with zoomlevel := clampZoomRequest zoomLevel }
  match s1.display with
  | none => (s1, [])
  | some d =>
    let minZoom : Int :=
      virt_viewer_window_get_minimal_zoom_level s1.minWidth s1.minHeight
        d.desktopWidth d.desktopHeight
    let p2 : WinState × List Effect :=
      if minZoom > s1.zoomlevel
      then ({ s1 with zoomlevel := minZoom }, [Effect.debugZoomFloorApplied])
      else (s1, [])
    if p2.1.zoomlevel = d.zoomLevel ∧
       p2.1.zoomlevel = virt_viewer_window_get_real_zoom_level p2.1 then
      (p2.1, p2.2 ++ [Effect.debugZoomUnchanged])
    else
      ({ p2.1 with display := some { d with zoomLevel := p2.1.zoomlevel } },
       p2.2 ++ [Effect.displaySetZoom p2.1.zoomlevel, Effect.queueResize])

/-- `virt_viewer_window_get_zoom_level` (lines 1254-1258). -/
def virt_viewer_window_get_zoom_level (s : WinState) : Int := s.zoomlevel

/-- `virt_viewer_window_desktop_resize` (lines 444-453): defer when the
window is not visible by setting the pending flag, otherwise queue a resize
to natural size. -/
def virt_viewer_window_desktop_resize (s : WinState) : WinState × List Effect :=
  if s.visible = false then ({ s with desktopResizePending := true }, [])
  else (s, [Effect.queueResize])

/-- `virt_viewer_window_enable_kiosk` (lines 1168-1181): force-hide the
revealer and disable the modifiers. -/
def virt_viewer_window_enable_kiosk (s : WinState) : WinState × List Effect :=
  (virt_viewer_window_disable_modifiers s, [Effect.forceReveal false])

/-- `virt_viewer_window_show` (lines 1183-1201): enable the attached Display
if it is disabled, apply a pending deferred resize and clear the flag, show
the toolkit window, re-apply kiosk lockdown when in kiosk mode, and
re-position to the fullscreen monitor when fullscreen. -/
def virt_viewer_window_show (s : WinState) : WinState × List Effect :=
  let p1 : WinState × List Effect :=
    match s.display with
    | some d =>
      if d.enabled = false
      then ({ s with display := some { d with enabled := true } }, [Effect.displayEnable])
      else (s, [])
    | none => (s, [])
  let p2 : WinState × List Effect :=
    if p1.1.desktopResizePending = true
    then ({ p1.1 with desktopResizePending := false }, [Effect.queueResize])
    else (p1.1, [])
  let s3 : WinState := { p2.1 with visible := true }
  let p4 : WinState × List Effect :=
    if s3.kiosk = true
    then ((virt_viewer_window_enable_kiosk s3).1, (virt_viewer_window_enable_kiosk s3).2)
    else (s3, [])
  let e5 : List Effect :=
    if p4.1.fullscreen = true then moveToMonitorEffects p4.1 else []
  (p4.1, p1.2 ++ p2.2 ++ [Effect.widgetShow] ++ p4.2 ++ e5)

/-- `virt_viewer_window_hide` (lines 1203-1217): in kiosk mode warn and do
nothing; otherwise hide the toolkit window and disable the attached
Display. -/
def virt_viewer_window_hide (s : WinState) : WinState × List Effect :=
  if s.kiosk = true then (s, [Effect.warnHideKiosk])
  else
    let s1 : WinState := { s with visible := false }
    match s1.display with
    | some d =>
      ({ s1 with display := some { d with enabled := false } },
       [Effect.widgetHide, Effect.displayDisable])
    | none => (s1, [Effect.widgetHide])

/-- `virt_viewer_window_set_kiosk` (lines 1284-1299): no-op when the flag
already has the requested value; otherwise store the new value, then either
apply kiosk lockdown (enabling) or merely log that disabling is not
implemented. -/
def virt_viewer_window_set_kiosk (s : WinState) (enabled : Bool) :
    WinState × List Effect :=
  if s.kiosk = enabled then (s, [])
  else
    let s1 : WinState := { s with kiosk := enabled }
    if enabled = true then virt_viewer_window_enable_kiosk s1
    else (s1, [Effect.debugKioskDisableUnimplemented])

/-- The Display-originated signals and caller operations quantified over by
the grab-arbitration invariant: `display-pointer-grab`/`-ungrab` (lines
883-901), `display-keyboard-grab`/`-ungrab` (lines 903-915) and
`virt_viewer_window_set_kiosk`. -/
inductive GrabEv where
  | pointerGrab
  | pointerUngrab
  | keyboardGrab
  | keyboardUngrab
  | setKiosk (b : Bool)
  deriving DecidableEq

/-- Dispatch of one `GrabEv` to its handler: `virt_viewer_window_pointer_grab`
sets `grabbed` (and updates the title, a pure widget call);
`virt_viewer_window_pointer_ungrab` clears it; the keyboard grab/ungrab
handlers call `virt_viewer_window_disable_modifiers` /
`virt_viewer_window_enable_modifiers`. -/
def grabStep (s : WinState) (e : GrabEv) : WinState :=
  match e with
  | GrabEv.pointerGrab => { s with grabbed := true }
  | GrabEv.pointerUngrab => { s with grabbed := false }
  | GrabEv.keyboardGrab => virt_viewer_window_disable_modifiers s
  | GrabEv.keyboardUngrab => virt_viewer_window_enable_modifiers s
  | GrabEv.setKiosk b => (virt_viewer_window_set_kiosk s b).1

/-- Run a sequence of grab-arbitration events. -/
def runGrabEvents (s : WinState) (es : List GrabEv) : WinState :=
  es.foldl grabStep s

/-- Reference model for the amended grab-arbitration invariant: the pair
(kiosk flag, accelEnabled) after one event.  Keyboard grab disables the
modifiers, keyboard ungrab re-enables them (even in kiosk mode), a kiosk
activation (setKiosk true when the flag was false) disables them, a kiosk
deactivation only clears the flag, and pointer grab events are ignored. -/
def kioskAccelStep (p : Bool × Bool) (e : GrabEv) : Bool × Bool :=
  match e with
  | GrabEv.pointerGrab => p
  | GrabEv.pointerUngrab => p
  | GrabEv.keyboardGrab => (p.1, false)
  | GrabEv.keyboardUngrab => (p.1, true)
  | GrabEv.setKiosk b => if p.1 = b then p else (b, if b = true then false else p.2)

/-- A display as typically attached: enabled, ready, at normal zoom. -/
def initDisplay : Display :=
  { desktopWidth := 1024, desktopHeight := 768, zoomLevel := NORMAL_ZOOM_LEVEL,
    enabled := true, showHintReady := true }

/-- The controller state right after `virt_viewer_window_init` (lines
367-442): `fullscreen_monitor = -1` (line 382), `accel_enabled = TRUE`
(line 429), `zoomlevel = NORMAL_ZOOM_LEVEL` (line 437), everything else
zero-initialised by GObject; `accel_list` holds the window's accel groups
(lines 431-435), here the single builder group 1, which is also
`priv->accel_group`.  `"F10"` is GTK's default menu-bar accel;
`minWidth`/`minHeight` carry typical minimal dimensions. -/
def initState : WinState :=
  { fullscreen := false, fullscreenMonitor := -1, zoomlevel := NORMAL_ZOOM_LEVEL,
    grabbed := false, accelEnabled := true, kiosk := false, initialZoomSet := false,
    desktopResizePending := false, visible := false, mapped := false,
    mapHandlerConnected := false, display := none, allocationWidth := 0,
    minWidth := 320, minHeight := 200, menuBarAccel := "F10", accelSetting := "",
    enableMnemonics := true, enableMnemonicsSave := false, accelList := [1],
    windowAccelGroups := [1], accelGroup := 1, appEnableAccel := true }

/-- `initState` with `initDisplay` attached, still unmapped and hidden. -/
def attachedState : WinState := { initState with display := some initDisplay }

/-- A state in kiosk mode (modifiers already disabled, as kiosk activation
leaves them). -/
def kioskState : WinState := { initState with kiosk := true, accelEnabled := false }

/-- The concrete scenario of the spec's zoom example: desktop 550×400,
minimal dimensions 200×150, display at normal zoom, window visible. -/
def zoomExampleState : WinState :=
  { initState with
    display := some { desktopWidth := 550, desktopHeight := 400,
                      zoomLevel := NORMAL_ZOOM_LEVEL, enabled := true,
                      showHintReady := true },
    minWidth := 200, minHeight := 150, visible := true, mapped := true,
    allocationWidth := 550 }

/-- Selects the calls to the attached Display's `set_monitor` and
`set_fullscreen` operations out of an effect trace. -/
def isDisplayFullscreenSetter (e : Effect) : Bool :=
  match e with
  | Effect.displaySetMonitor _ => true
  | Effect.displaySetFullscreen _ => true
  | _ => false

@[simp]
theorem disable_modifiers_accelEnabled (s : WinState) :
    (virt_viewer_window_disable_modifiers s).accelEnabled = false := by
  by_cases h : s.accelEnabled = false <;> simp [virt_viewer_window_disable_modifiers, h]

@[simp]
theorem disable_modifiers_kiosk (s : WinState) :
    (virt_viewer_window_disable_modifiers s).kiosk = s.kiosk := by
  by_cases h : s.accelEnabled = false <;> simp [virt_viewer_window_disable_modifiers, h]

@[simp]
theorem disable_modifiers_display (s : WinState) :
    (virt_viewer_window_disable_modifiers s).display = s.display := by
  by_cases h : s.accelEnabled = false <;> simp [virt_viewer_window_disable_modifiers, h]

@[simp]
theorem disable_modifiers_visible (s : WinState) :
    (virt_viewer_window_disable_modifiers s).visible = s.visible := by
  by_cases h : s.accelEnabled = false <;> simp [virt_viewer_window_disable_modifiers, h]

@[simp]
theorem disable_modifiers_desktopResizePending (s : WinState) :
    (virt_viewer_window_disable_modifiers s).desktopResizePending = s.desktopResizePending := by
  by_cases h : s.accelEnabled = false <;> simp [virt_viewer_window_disable_modifiers, h]

@[simp]
theorem disable_modifiers_fullscreen (s : WinState) :
    (virt_viewer_window_disable_modifiers s).fullscreen = s.fullscreen := by
  by_cases h : s.accelEnabled = false <;> simp [virt_viewer_window_disable_modifiers, h]

@[simp]
theorem disable_modifiers_fullscreenMonitor (s : WinState) :
    (virt_viewer_window_disable_modifiers s).fullscreenMonitor = s.fullscreenMonitor := by
  by_cases h : s.accelEnabled = false <;> simp [virt_viewer_window_disable_modifiers, h]

@[simp]
theorem enable_modifiers_accelEnabled (s : WinState) :
    (virt_viewer_window_enable_modifiers s).accelEnabled = true := by
  by_cases h : s.accelEnabled = true <;> simp [virt_viewer_window_enable_modifiers, h]

@[simp]
theorem enable_modifiers_kiosk (s : WinState) :
    (virt_viewer_window_enable_modifiers s).kiosk = s.kiosk := by
  by_cases h : s.accelEnabled = true <;> simp [virt_viewer_window_enable_modifiers, h]

/-- C7: calling `hide()` while kiosk mode is active is rejected: the code
emits the "Can't hide windows in kiosk mode" warning, raises no exception
(the operation is total) and leaves the controller state — in particular
window visibility and the attached Display's enabled flag — exactly as it
was. -/
theorem C7_hide_in_kiosk_rejected (s : WinState) (h : s.kiosk = true) :
    virt_viewer_window_hide s = (s, [Effect.warnHideKiosk]) := by
  simp [virt_viewer_window_hide, h]

/-- Witness for C7 at a concrete kiosk-mode state. -/
theorem C7_hide_in_kiosk_rejected_witness :
    kioskState.kiosk = true ∧
    virt_viewer_window_hide kioskState = (kioskState, [Effect.warnHideKiosk]) :=
  ⟨rfl, C7_hide_in_kiosk_rejected kioskState rfl⟩

/-- C3 counterexample: `setKiosk(false)` while kiosk mode is active is NOT a
pure no-op on the controller state: `virt_viewer_window_set_kiosk` stores
the requested value before checking it, so the kiosk flag changes from
`true` to `false`. -/
theorem C3_set_kiosk_false_changes_flag :
    kioskState.kiosk = true ∧
    (virt_viewer_window_set_kiosk kioskState false).1.kiosk = false := by
  exact ⟨rfl, rfl⟩

/-- C3 (amended): calling `setKiosk(false)` while kiosk mode is active
clears the kiosk flag, logs that disabling kiosk is not implemented, and
does nothing else: no other controller state changes and, in particular,
no modifier re-enable and no window-visibility work happens. -/
theorem C3_set_kiosk_false_only_clears_flag (s : WinState) (h : s.kiosk = true) :
    virt_viewer_window_set_kiosk s false =
      ({ s with kiosk := false }, [Effect.debugKioskDisableUnimplemented]) := by
  simp [virt_viewer_window_set_kiosk, h]

/-- Witness for the amended C3 at a concrete kiosk-mode state. -/
theorem C3_set_kiosk_false_only_clears_flag_witness :
    kioskState.kiosk = true ∧
    virt_viewer_window_set_kiosk kioskState false =
      ({ kioskState with kiosk := false }, [Effect.debugKioskDisableUnimplemented]) :=
  ⟨rfl, C3_set_kiosk_false_only_clears_flag kioskState rfl⟩

/-- C9: on a Display-reported desktop-size change, if the window is not
visible the resize is deferred (`desktop_resize_pending` is set and no
resize is requested); if it is visible a resize to natural size is
requested immediately; and a pending deferred resize is applied — a resize
is requested and the pending flag cleared — by the next `show()`. -/
theorem C9_desktop_resize_deferral (s : WinState) :
    (s.visible = false →
       virt_viewer_window_desktop_resize s = ({ s with desktopResizePending := true }, [])) ∧
    (s.visible = true →
       virt_viewer_window_desktop_resize s = (s, [Effect.queueResize])) ∧
    (s.desktopResizePending = true →
       (virt_viewer_window_show s).1.desktopResizePending = false ∧
       Effect.queueResize ∈ (virt_viewer_window_show s).2) := by
  refine ⟨?_, ?_, ?_⟩
  · intro h; simp [virt_viewer_window_desktop_resize, h]
  · intro h; simp [virt_viewer_window_desktop_resize, h]
  · intro h
    rcases hd : s.display with _ | d
    · by_cases hk : s.kiosk = true <;>
        simp [virt_viewer_window_show, virt_viewer_window_enable_kiosk, hd, h, hk]
    · by_cases he : d.enabled = false <;> by_cases hk : s.kiosk = true <;>
        simp [virt_viewer_window_show, virt_viewer_window_enable_kiosk, hd, h, hk, he]

/-- Witness for C9 at a concrete hidden state with a pending resize. -/
theorem C9_desktop_resize_deferral_witness :
    virt_viewer_window_desktop_resize initState =
      ({ initState with desktopResizePending := true }, []) ∧
    (virt_viewer_window_show { initState with desktopResizePending := true }).1.desktopResizePending
      = false := by
  refine ⟨(C9_desktop_resize_deferral initState).1 rfl, ?_⟩
  exact ((C9_desktop_resize_deferral { initState with desktopResizePending := true }).2.2 rfl).1

/-- C10: with a Display attached and outside kiosk mode, `hide()` hides the
window and then disables the Display; and when the attached Display is
disabled, `show()` first enables it (the first effect) before showing the
window — visibility and Display enablement are toggled together. -/
theorem C10_visibility_toggles_display (s : WinState) (d : Display) :
    (s.kiosk = false → s.display = some d →
       virt_viewer_window_hide s =
         ({ s with visible := false, display := some { d with enabled := false } },
          [Effect.widgetHide, Effect.displayDisable])) ∧
    (s.display = some d → d.enabled = false →
       (virt_viewer_window_show s).1.display = some { d with enabled := true } ∧
       (virt_viewer_window_show s).1.visible = true ∧
       ∃ rest, (virt_viewer_window_show s).2 = Effect.displayEnable :: rest ∧
               Effect.widgetShow ∈ rest) := by
  constructor
  · intro hk hd
    simp [virt_viewer_window_hide, hk, hd]
  · intro hd he
    refine ⟨?_, ?_, ?_⟩
    · by_cases hp : s.desktopResizePending = true <;> by_cases hk : s.kiosk = true <;>
        simp [virt_viewer_window_show, virt_viewer_window_enable_kiosk, hd, he, hp, hk]
    · by_cases hp : s.desktopResizePending = true <;> by_cases hk : s.kiosk = true <;>
        simp [virt_viewer_window_show, virt_viewer_window_enable_kiosk, hd, he, hp, hk]
    · refine ⟨(virt_viewer_window_show s).2.tail, ?_, ?_⟩ <;>
        by_cases hp : s.desktopResizePending = true <;> by_cases hk : s.kiosk = true <;>
        simp [virt_viewer_window_show, virt_viewer_window_enable_kiosk, hd, he, hp, hk]

/-- Witness for C10 at a concrete state with a disabled attached Display. -/
theorem C10_visibility_toggles_display_witness :
    virt_viewer_window_hide attachedState =
      ({ attachedState with visible := false,
                            display := some { initDisplay with enabled := false } },
       [Effect.widgetHide, Effect.displayDisable]) ∧
    (virt_viewer_window_show
       { attachedState with display := some { initDisplay with enabled := false } }).1.display =
      some { initDisplay with enabled := true } := by
  constructor
  · exact (C10_visibility_toggles_display attachedState initDisplay).1 rfl rfl
  · exact ((C10_visibility_toggles_display
      { attachedState with display := some { initDisplay with enabled := false } }
      { initDisplay with enabled := false }).2 rfl rfl).1

@[simp]
theorem leave_fullscreen_fullscreen (s : WinState) :
    (virt_viewer_window_leave_fullscreen s).1.fullscreen = false := by
  by_cases h : s.fullscreen = false <;> simp [virt_viewer_window_leave_fullscreen, h]

@[simp]
theorem leave_fullscreen_mapped (s : WinState) :
    (virt_viewer_window_leave_fullscreen s).1.mapped = s.mapped := by
  by_cases h : s.fullscreen = false <;> simp [virt_viewer_window_leave_fullscreen, h]

@[simp]
theorem leave_fullscreen_display (s : WinState) :
    (virt_viewer_window_leave_fullscreen s).1.display = s.display := by
  by_cases h : s.fullscreen = false <;> simp [virt_viewer_window_leave_fullscreen, h]

/-- C5: `setZoomLevel(x)` clamps the request into
`[MIN_ZOOM_LEVEL, MAX_ZOOM_LEVEL]` before any further computation — for any
`x > MAX_ZOOM_LEVEL` the call is indistinguishable (same state, same
effects) from `setZoomLevel(MAX_ZOOM_LEVEL)` — and with no Display attached
the clamped value is stored, is readable via `getZoomLevel`, and the call
has no other effect. -/
theorem C5_set_zoom_level_clamps (s : WinState) (x : Int) :
    (x > MAX_ZOOM_LEVEL →
       virt_viewer_window_set_zoom_level s x =
         virt_viewer_window_set_zoom_level s MAX_ZOOM_LEVEL) ∧
    (s.display = none →
       virt_viewer_window_set_zoom_level s x =
         ({ s with zoomlevel := clampZoomRequest x }, []) ∧
       virt_viewer_window_get_zoom_level (virt_viewer_window_set_zoom_level s x).1 =
         clampZoomRequest x) := by
  constructor
  · intro hx
    have hc : clampZoomRequest x = clampZoomRequest MAX_ZOOM_LEVEL := by
      simp only [clampZoomRequest, MIN_ZOOM_LEVEL, MAX_ZOOM_LEVEL] at *
      split_ifs <;> omega
    simp only [virt_viewer_window_set_zoom_level, hc]
  · intro hd
    constructor
    · simp [virt_viewer_window_set_zoom_level, hd]
    · simp [virt_viewer_window_set_zoom_level, virt_viewer_window_get_zoom_level, hd]

/-- Witness for C5: `setZoomLevel(900)` with `MAX_ZOOM_LEVEL = 400` behaves
exactly like `setZoomLevel(400)` and, with no Display attached, just stores
the clamped value. -/
theorem C5_set_zoom_level_clamps_witness :
    virt_viewer_window_set_zoom_level initState 900 =
      virt_viewer_window_set_zoom_level initState MAX_ZOOM_LEVEL ∧
    virt_viewer_window_set_zoom_level initState 900 =
      ({ initState with zoomlevel := clampZoomRequest 900 }, []) ∧
    virt_viewer_window_get_zoom_level (virt_viewer_window_set_zoom_level initState 900).1 =
      clampZoomRequest 900 :=
  ⟨(C5_set_zoom_level_clamps initState 900).1 (by decide),
   ((C5_set_zoom_level_clamps initState 900).2 rfl).1,
   ((C5_set_zoom_level_clamps initState 900).2 rfl).2⟩

/-- A mapped, visible state fullscreen on monitor 0 with a display attached. -/
def fullscreenOnZeroState : WinState :=
  { attachedState with fullscreen := true, fullscreenMonitor := 0,
                       visible := true, mapped := true }

/-- C6: switching monitors while fullscreen performs exactly one complete
`leaveFullscreen` side-effect sequence before the second entry's effects:
`enterFullscreen(m2)` from a state fullscreen on `m1 ≠ m2` equals running
`leaveFullscreen` and then `enterFullscreen(m2)` on its result, with the
effect traces concatenated in that order; and `enterFullscreen(m)` while
already fullscreen on the same monitor `m` is a no-op (state unchanged, no
effects). -/
theorem C6_enter_fullscreen_monitor_switch (s : WinState) (m : Int) :
    (s.fullscreen = true → s.fullscreenMonitor ≠ m →
       virt_viewer_window_enter_fullscreen s m =
         ((virt_viewer_window_enter_fullscreen
             (virt_viewer_window_leave_fullscreen s).1 m).1,
          (virt_viewer_window_leave_fullscreen s).2 ++
          (virt_viewer_window_enter_fullscreen
             (virt_viewer_window_leave_fullscreen s).1 m).2)) ∧
    (s.fullscreen = true → s.fullscreenMonitor = m →
       virt_viewer_window_enter_fullscreen s m = (s, [])) := by
  constructor
  · intro hf hm
    by_cases hmp : s.mapped = false <;>
      rcases hd : s.display with _ | d <;>
      simp [virt_viewer_window_enter_fullscreen, hf, hm, hmp, hd]
  · intro hf hm
    simp [virt_viewer_window_enter_fullscreen, hf, hm]

/-- Witness for C6: fullscreen on monitor 0, entering monitor 1 decomposes
through a full leave, and re-entering monitor 0 is a no-op. -/
theorem C6_enter_fullscreen_monitor_switch_witness :
    virt_viewer_window_enter_fullscreen fullscreenOnZeroState 1 =
      ((virt_viewer_window_enter_fullscreen
          (virt_viewer_window_leave_fullscreen fullscreenOnZeroState).1 1).1,
       (virt_viewer_window_leave_fullscreen fullscreenOnZeroState).2 ++
       (virt_viewer_window_enter_fullscreen
          (virt_viewer_window_leave_fullscreen fullscreenOnZeroState).1 1).2) ∧
    virt_viewer_window_enter_fullscreen fullscreenOnZeroState 0 =
      (fullscreenOnZeroState, []) :=
  ⟨(C6_enter_fullscreen_monitor_switch fullscreenOnZeroState 1).1 rfl (by decide),
   (C6_enter_fullscreen_monitor_switch fullscreenOnZeroState 0).2 rfl rfl⟩

/-- C1 counterexample: with a Display attached, `enterFullscreen(0)` followed
by `leaveFullscreen()` before the window was ever mapped does NOT produce
zero calls to the Display's `set_monitor`/`set_fullscreen` setters:
`enter_fullscreen` sets the `fullscreen` flag before deferring, so the
subsequent `leave_fullscreen` does not early-return and notifies the
Display with `set_monitor(-1)` and `set_fullscreen(FALSE)`. -/
theorem C1_deferred_enter_leave_notifies_display :
    ((virt_viewer_window_enter_fullscreen attachedState 0).2 ++
     (virt_viewer_window_leave_fullscreen
        (virt_viewer_window_enter_fullscreen attachedState 0).1).2).filter
      isDisplayFullscreenSetter =
      [Effect.displaySetMonitor (-1), Effect.displaySetFullscreen false] ∧
    [Effect.displaySetMonitor (-1), Effect.displaySetFullscreen false] ≠
      ([] : List Effect) := by
  decide

/-- C1 (amended): `enterFullscreen(m)` before the window is ever mapped is
fully deferred — it makes no `set_monitor`/`set_fullscreen` call on the
attached Display and connects the one-shot map handler — and the subsequent
`leaveFullscreen()` cancels that handler; but because the fullscreen flag
was already set, `leaveFullscreen` notifies the attached Display exactly
once with `set_monitor(-1)` and `set_fullscreen(false)` (and no
`set_fullscreen(true)`/`set_monitor(m)` call ever occurs). -/
theorem C1_deferred_enter_leave_amended (s : WinState) (d : Display) (m : Int)
    (hmp : s.mapped = false) (hf : s.fullscreen = false) (hd : s.display = some d) :
    (virt_viewer_window_enter_fullscreen s m).2.filter isDisplayFullscreenSetter = [] ∧
    (virt_viewer_window_enter_fullscreen s m).1.mapHandlerConnected = true ∧
    (virt_viewer_window_leave_fullscreen
       (virt_viewer_window_enter_fullscreen s m).1).2.filter isDisplayFullscreenSetter =
      [Effect.displaySetMonitor (-1), Effect.displaySetFullscreen false] ∧
    (virt_viewer_window_leave_fullscreen
       (virt_viewer_window_enter_fullscreen s m).1).1.mapHandlerConnected = false := by
  have hff : ¬(s.fullscreen = true ∧ s.fullscreenMonitor ≠ m) := by simp [hf]
  refine ⟨?_, ?_, ?_, ?_⟩ <;>
    by_cases hmm : m = -1 <;>
    simp [virt_viewer_window_enter_fullscreen, virt_viewer_window_leave_fullscreen,
          moveToMonitorEffects, isDisplayFullscreenSetter, hf, hmp, hd, hff, hmm]

/-- Witness for the amended C1 at the concrete attached, unmapped state. -/
theorem C1_deferred_enter_leave_amended_witness :
    (virt_viewer_window_enter_fullscreen attachedState 0).2.filter
      isDisplayFullscreenSetter = [] ∧
    (virt_viewer_window_leave_fullscreen
       (virt_viewer_window_enter_fullscreen attachedState 0).1).2.filter
      isDisplayFullscreenSetter =
      [Effect.displaySetMonitor (-1), Effect.displaySetFullscreen false] :=
  ⟨(C1_deferred_enter_leave_amended attachedState initDisplay 0 rfl rfl rfl).1,
   (C1_deferred_enter_leave_amended attachedState initDisplay 0 rfl rfl rfl).2.2.1⟩

theorem mem_removeAccelGroups_of_not_removed {a : Nat} (win groups : List Nat)
    (exempt : Nat) (enableAccel : Bool)
    (ha : a ∉ groups ∨ (enableAccel = true ∧ a = exempt)) :
    a ∈ removeAccelGroups win groups exempt enableAccel ↔ a ∈ win := by
  induction groups generalizing win with
  | nil => simp [removeAccelGroups]
  | cons g rest ih =>
    have ha' : a ∉ rest ∨ (enableAccel = true ∧ a = exempt) := by
      rcases ha with h | h
      · exact Or.inl (fun hr => h (List.mem_cons_of_mem g hr))
      · exact Or.inr h
    by_cases hc : enableAccel = true ∧ g = exempt
    · simp only [removeAccelGroups, if_pos hc]
      exact ih win ha'
    · have hag : a ≠ g := by
        intro hag
        rcases ha with h | h
        · exact h (hag ▸ List.mem_cons_self a rest)
        · exact hc ⟨h.1, hag ▸ h.2⟩
      simp only [removeAccelGroups, if_neg hc]
      rw [ih (win.erase g) ha']
      exact List.mem_erase_of_ne hag

theorem mem_removeAccelGroups_mono {a : Nat} (win groups : List Nat)
    (exempt : Nat) (enableAccel : Bool)
    (h : a ∈ removeAccelGroups win groups exempt enableAccel) : a ∈ win := by
  induction groups generalizing win with
  | nil => simpa [removeAccelGroups] using h
  | cons g rest ih =>
    by_cases hc : enableAccel = true ∧ g = exempt
    · simp only [removeAccelGroups, if_pos hc] at h
      exact ih win h
    · simp only [removeAccelGroups, if_neg hc] at h
      exact List.mem_of_mem_erase (ih (win.erase g) h)

theorem mem_addAccelGroups {a : Nat} (win groups : List Nat)
    (exempt : Nat) (enableAccel : Bool) :
    a ∈ addAccelGroups win groups exempt enableAccel ↔
      a ∈ win ∨ (a ∈ groups ∧ ¬(enableAccel = true ∧ a = exempt)) := by
  induction groups generalizing win with
  | nil => simp [addAccelGroups]
  | cons g rest ih =>
    by_cases hc : enableAccel = true ∧ g = exempt
    · simp only [addAccelGroups, if_pos hc, ih, List.mem_cons]
      constructor
      · rintro (h | h)
        · exact Or.inl h
        · exact Or.inr ⟨Or.inr h.1, h.2⟩
      · rintro (h | ⟨hag | har, hne⟩)
        · exact Or.inl h
        · exact absurd ⟨hc.1, hag ▸ hc.2⟩ hne
        · exact Or.inr ⟨har, hne⟩
    · simp only [addAccelGroups, if_neg hc, ih, List.mem_append,
                 List.mem_cons, List.not_mem_nil, or_false]
      constructor
      · rintro ((h | h) | h)
        · exact Or.inl h
        · exact Or.inr ⟨Or.inl h, h ▸ hc⟩
        · exact Or.inr ⟨Or.inr h.1, h.2⟩
      · rintro (h | ⟨hag | har, hne⟩)
        · exact Or.inl (Or.inl h)
        · exact Or.inl (Or.inr hag)
        · exact Or.inr ⟨har, hne⟩

/-- C8: `disableModifiers` is idempotent (a second call is a no-op, as is any
call with the modifiers already disabled); `enableModifiers` is a no-op when
the modifiers are already enabled; and `enableModifiers` after
`disableModifiers` restores the saved menu-bar-accelerator setting and the
saved mnemonics setting, and re-adds the removed accelerator groups under
the same exemption rule — so when every listed group was on the window to
begin with, the window's accel-group set is restored exactly (as a set). -/
theorem C8_modifier_arbitration (s : WinState) :
    (virt_viewer_window_disable_modifiers (virt_viewer_window_disable_modifiers s) =
       virt_viewer_window_disable_modifiers s) ∧
    (s.accelEnabled = false → virt_viewer_window_disable_modifiers s = s) ∧
    (s.accelEnabled = true → virt_viewer_window_enable_modifiers s = s) ∧
    (s.accelEnabled = true → (∀ g, g ∈ s.accelList → g ∈ s.windowAccelGroups) →
       (virt_viewer_window_enable_modifiers
          (virt_viewer_window_disable_modifiers s)).menuBarAccel = s.menuBarAccel ∧
       (virt_viewer_window_enable_modifiers
          (virt_viewer_window_disable_modifiers s)).enableMnemonics = s.enableMnemonics ∧
       (virt_viewer_window_enable_modifiers
          (virt_viewer_window_disable_modifiers s)).accelEnabled = true ∧
       (∀ g, g ∈ (virt_viewer_window_enable_modifiers
                    (virt_viewer_window_disable_modifiers s)).windowAccelGroups ↔
             g ∈ s.windowAccelGroups)) := by
  refine ⟨?_, ?_, ?_, ?_⟩
  · by_cases h : s.accelEnabled = false
    · simp [virt_viewer_window_disable_modifiers, h]
    · have h2 : (virt_viewer_window_disable_modifiers s).accelEnabled = false :=
        disable_modifiers_accelEnabled s
      simp only [virt_viewer_window_disable_modifiers] at h2 ⊢
      simp [h, h2]
  · intro h; simp [virt_viewer_window_disable_modifiers, h]
  · intro h; simp [virt_viewer_window_enable_modifiers, h]
  · intro h hsub
    have hd : virt_viewer_window_disable_modifiers s =
        { s with
          accelSetting := s.menuBarAccel,
          menuBarAccel := "",
          windowAccelGroups :=
            removeAccelGroups s.windowAccelGroups s.accelList s.accelGroup s.appEnableAccel,
          enableMnemonicsSave := s.enableMnemonics,
          enableMnemonics := false,
          accelEnabled := false } := by
      simp [virt_viewer_window_disable_modifiers, h]
    rw [hd]
    refine ⟨by simp [virt_viewer_window_enable_modifiers],
            by simp [virt_viewer_window_enable_modifiers],
            by simp [virt_viewer_window_enable_modifiers], ?_⟩
    intro g
    simp only [virt_viewer_window_enable_modifiers, Bool.false_eq_true, if_neg,
               if_false]
    rw [mem_addAccelGroups]
    constructor
    · rintro (hg | ⟨hgl, _⟩)
      · exact mem_removeAccelGroups_mono _ _ _ _ hg
      · exact hsub g hgl
    · intro hg
      by_cases hrem : g ∈ s.accelList ∧ ¬(s.appEnableAccel = true ∧ g = s.accelGroup)
      · exact Or.inr ⟨hrem.1, hrem.2⟩
      · left
        rw [mem_removeAccelGroups_of_not_removed]
        · exact hg
        · rcases Classical.em (g ∈ s.accelList) with hgl | hgl
          · right
            by_contra hne
            exact hrem ⟨hgl, fun hcc => hne hcc⟩
          · exact Or.inl hgl

/-- Witness for C8 at a concrete enabled state whose accel list is on the
window. -/
theorem C8_modifier_arbitration_witness :
    virt_viewer_window_disable_modifiers (virt_viewer_window_disable_modifiers initState) =
      virt_viewer_window_disable_modifiers initState ∧
    virt_viewer_window_enable_modifiers initState = initState ∧
    (virt_viewer_window_enable_modifiers
       (virt_viewer_window_disable_modifiers initState)).menuBarAccel =
      initState.menuBarAccel :=
  ⟨(C8_modifier_arbitration initState).1,
   (C8_modifier_arbitration initState).2.2.1 rfl,
   ((C8_modifier_arbitration initState).2.2.2 rfl
      (by decide)).1⟩

theorem grabStep_kioskAccel (s : WinState) (e : GrabEv) :
    ((grabStep s e).kiosk, (grabStep s e).accelEnabled) =
      kioskAccelStep (s.kiosk, s.accelEnabled) e := by
  cases e with
  | pointerGrab => rfl
  | pointerUngrab => rfl
  | keyboardGrab => simp [grabStep, kioskAccelStep]
  | keyboardUngrab => simp [grabStep, kioskAccelStep]
  | setKiosk b =>
    by_cases hk : s.kiosk = b
    · simp [grabStep, kioskAccelStep, virt_viewer_window_set_kiosk, hk]
    · cases b with
      | true =>
        simp [grabStep, kioskAccelStep, virt_viewer_window_set_kiosk,
              virt_viewer_window_enable_kiosk, hk]
      | false =>
        simp [grabStep, kioskAccelStep, virt_viewer_window_set_kiosk, hk]

/-- C2 counterexample: the claimed invariant "`accelEnabled` is false
whenever `grabbed` is true" fails on a reachable state: a single
pointer-grab event sets `grabbed` without touching the modifiers (only the
*keyboard*-grab signal disables them), leaving `grabbed = true` with
`accelEnabled = true` outside kiosk mode. -/
theorem C2_pointer_grab_keeps_accel :
    (runGrabEvents attachedState [GrabEv.pointerGrab]).grabbed = true ∧
    (runGrabEvents attachedState [GrabEv.pointerGrab]).accelEnabled = true ∧
    (runGrabEvents attachedState [GrabEv.pointerGrab]).kiosk = false := by
  decide

/-- C2 (amended): across every sequence of pointer-grab/ungrab,
keyboard-grab/ungrab and setKiosk events, the pair (kiosk flag,
`accelEnabled`) evolves exactly by `kioskAccelStep`: the modifiers are
disabled by a keyboard grab or by a kiosk activation, re-enabled exactly by
a keyboard ungrab (even while kiosk mode is active), and pointer
grab/ungrab events (which drive `grabbed`) never affect `accelEnabled`. -/
theorem C2_accel_arbitration_amended (es : List GrabEv) (s : WinState) :
    ((runGrabEvents s es).kiosk, (runGrabEvents s es).accelEnabled) =
      List.foldl kioskAccelStep (s.kiosk, s.accelEnabled) es := by
  induction es generalizing s with
  | nil => rfl
  | cons e rest ih =>
    have h1 : runGrabEvents s (e :: rest) = runGrabEvents (grabStep s e) rest := rfl
    rw [h1, ih (grabStep s e), List.foldl_cons, grabStep_kioskAccel]

theorem natCeilDiv_cast_ceil (a b : Nat) :
    ((natCeilDiv (10 * a) b : Nat) : Int) = ⌈((a : ℚ) / (b : ℚ)) * 10⌉ := by
  rcases Nat.eq_zero_or_pos b with hb | hb
  · subst hb
    simp [natCeilDiv]
  · have hbq : (0 : ℚ) < (b : ℚ) := by exact_mod_cast hb
    have hdiv : ((a : ℚ) / (b : ℚ)) * 10 = ((10 * a : ℕ) : ℚ) / ((b : ℕ) : ℚ) := by
      push_cast
      ring
    rw [hdiv]
    simp only [natCeilDiv]
    have hq : ((10 * a + b - 1) / b) * b + (10 * a + b - 1) % b = 10 * a + b - 1 :=
      Nat.div_add_mod' (10 * a + b - 1) b
    have hr : (10 * a + b - 1) % b < b := Nat.mod_lt _ hb
    have hnat1 : 10 * a ≤ ((10 * a + b - 1) / b) * b := by omega
    have hnat2 : ((10 * a + b - 1) / b) * b < 10 * a + b := by omega
    rw [eq_comm, Int.ceil_eq_iff]
    constructor
    · rw [lt_div_iff₀ hbq]
      have hz : (((10 * a + b - 1) / b : ℕ) : ℤ) * b < 10 * a + b := by exact_mod_cast hnat2
      have : ((((10 * a + b - 1) / b : ℕ) : ℤ) - 1) * b < 10 * a := by
        have hbz : (1 : ℤ) ≤ b := by exact_mod_cast hb
        nlinarith
      push_cast
      exact_mod_cast this
    · rw [div_le_iff₀ hbq]
      push_cast
      exact_mod_cast hnat1

/-- C4: the minimum zoom floor computed by
`virt_viewer_window_get_minimal_zoom_level` equals, for every desktop size
and every pair of minimal window dimensions, the spec's formula
`ceil(max(minWidth/deskWidth, minHeight/deskHeight) * 10) * ZOOM_STEP`
clamped into `[MIN_ZOOM_LEVEL, NORMAL_ZOOM_LEVEL]`; in particular for
desktop 550×400 with minimal dimensions 200×150 the floor is 40, and
`setZoomLevel(10)` in that configuration stores effective zoom 40. -/
theorem C4_minimal_zoom_floor :
    (∀ minWidth minHeight deskWidth deskHeight : Nat,
       virt_viewer_window_get_minimal_zoom_level minWidth minHeight deskWidth deskHeight =
         minimalZoomFloorSpec minWidth minHeight deskWidth deskHeight) ∧
    virt_viewer_window_get_minimal_zoom_level 200 150 550 400 = 40 ∧
    (virt_viewer_window_set_zoom_level zoomExampleState 10).1.zoomlevel = 40 := by
  refine ⟨?_, by decide, by decide⟩
  intro mw mh w h
  simp only [virt_viewer_window_get_minimal_zoom_level, minimalZoomFloorSpec]
  have hz : ((max (natCeilDiv (10 * mw) w) (natCeilDiv (10 * mh) h) : Nat) : Int) =
      ⌈(max ((mw : ℚ) / (w : ℚ)) ((mh : ℚ) / (h : ℚ))) * 10⌉ := by
    rcases le_total ((mw : ℚ) / (w : ℚ)) ((mh : ℚ) / (h : ℚ)) with hle | hle
    · have hc : ((natCeilDiv (10 * mw) w : ℕ) : ℤ) ≤ ((natCeilDiv (10 * mh) h : ℕ) : ℤ) := by
        rw [natCeilDiv_cast_ceil, natCeilDiv_cast_ceil]
        exact Int.ceil_mono (mul_le_mul_of_nonneg_right hle (by norm_num))
      rw [max_eq_right (Nat.cast_le.mp hc), max_eq_right hle, natCeilDiv_cast_ceil]
    · have hc : ((natCeilDiv (10 * mh) h : ℕ) : ℤ) ≤ ((natCeilDiv (10 * mw) w : ℕ) : ℤ) := by
        rw [natCeilDiv_cast_ceil, natCeilDiv_cast_ceil]
        exact Int.ceil_mono (mul_le_mul_of_nonneg_right hle (by norm_num))
      rw [max_eq_left (Nat.cast_le.mp hc), max_eq_left hle, natCeilDiv_cast_ceil]
  rw [hz]
